import Mathlib

/-!
# Collector extension entry point (`collector/src/main.go`)

A shallow embedding of `main` and `initLogger`.  The process is a state
(`Proc`): the environment variables together with the chronological list of
the effects performed so far.  Library calls (`os`, `fmt`, `zap`) are small
state transformers; the package `internal/lifecycle` and the level parser of
`zap` are taken as parameters (`Externals`).
-/

namespace Collector

/-! ## Library layer: `os`, `fmt`, `zapcore`, `zap` -/

/-- A Go `error` value that is not nil, represented by its message. -/
abbrev GoError := String

/-- The process environment: `none` for an unset variable.  Values come from
the process's own environment block, so `os.Setenv` of a value obtained from
`os.LookupEnv` under a constant, well-formed key does not fail. -/
abbrev Env := String → Option String

/-- The levels of `zapcore.Level`. -/
inductive Level where
  | Debug | Info | Warn | Error | DPanic | Panic | Fatal
  deriving DecidableEq, Repr

/-- The numeric value of a `zapcore.Level` (`DebugLevel = -1`, `InfoLevel = 0`, ...). -/
def Level.toInt : Level → Int
  | .Debug => -1
  | .Info => 0
  | .Warn => 1
  | .Error => 2
  | .DPanic => 3
  | .Panic => 4
  | .Fatal => 5

/-- `zapcore.Level.Enabled`: a core at level `l` accepts an entry at level `lvl`
exactly when `lvl >= l`. -/
def Level.Enabled (l lvl : Level) : Bool := decide (l.toInt ≤ lvl.toInt)

/-- `zapcore.Level.unmarshalText`: the exact lower-case and upper-case names;
the empty text is `InfoLevel`. -/
def zapcore.unmarshalText (text : String) : Option Level :=
  if text = "debug" ∨ text = "DEBUG" then some Level.Debug
  else if text = "info" ∨ text = "INFO" ∨ text = "" then some Level.Info
  else if text = "warn" ∨ text = "WARN" then some Level.Warn
  else if text = "error" ∨ text = "ERROR" then some Level.Error
  else if text = "dpanic" ∨ text = "DPANIC" then some Level.DPanic
  else if text = "panic" ∨ text = "PANIC" then some Level.Panic
  else if text = "fatal" ∨ text = "FATAL" then some Level.Fatal
  else none

/-- Lower-casing of one rune as `bytes.ToLower` does it, as far as the result
can be an ASCII letter: `A`-`Z`, and the two runes outside ASCII whose lower
case is ASCII (U+0130 and U+212A). -/
def toLowerRune (c : Char) : Char :=
  if c = Char.ofNat 0x130 then 'i'
  else if c = Char.ofNat 0x212A then 'k'
  else c.toLower

/-- `zap.ParseAtomicLevel(text)`: `Level.UnmarshalText` tries the text as it is
and then lower-cased.  The error message is `unrecognized level: %q`, rendered
here for a text that needs no escaping. -/
def zap.ParseAtomicLevel (text : String) : Except GoError Level :=
  match zapcore.unmarshalText text with
  | some l => .ok l
  | none =>
    match zapcore.unmarshalText (String.mk (text.data.map toLowerRune)) with
    | some l => .ok l
    | none => .error ("unrecognized level: \"" ++ text ++ "\"")

/-- A `zap.Field`, as far as `main.go` builds them. -/
inductive Field where
  | Skip
  | String (key val : String)
  | Error (key : String) (err : GoError)
  deriving DecidableEq, Repr

/-- `zap.String(key, val)`. -/
def zap.String (key val : String) : Field := Field.String key val

/-- `zap.Error(err)`, that is `zap.NamedError("error", err)`: a nil error gives
the `Skip` field. -/
def zap.Error (err : Option GoError) : Field :=
  match err with
  | none => Field.Skip
  | some e => Field.Error "error" e

/-- A `*zap.Logger` built by `initLogger`: JSON encoder and `os.Stdout` are
fixed, the level of its core is what varies. -/
structure Logger where
  level : Level
  deriving DecidableEq, Repr

/-- A `context.Context`: the background context or one derived by the
lifecycle package. -/
inductive Ctx where
  | Background
  | Derived (id : Nat)
  deriving DecidableEq, Repr

/-- Handle of the `*lifecycle.manager` returned by `lifecycle.NewManager`. -/
structure Manager where
  handle : Nat
  deriving DecidableEq, Repr

/-- One effect performed by the process. `Log` is a call of a logging method
(`Info`, `Warn`); whether it writes a record is decided by `Event.record?`. -/
inductive Event where
  | Stdout (text : String)
  | EnvRead (key : String)
  | EnvWrite (key value : String)
  | NewLogger (level : Level)
  | Log (logger : Logger) (lvl : Level) (msg : String) (fields : List Field)
  | NewManager (env : Env) (ctx : Ctx) (logger : Logger) (version : String)
  | Run (lm : Manager) (ctx : Ctx)

/-- State of the process: environment and effects so far, oldest first. -/
structure Proc where
  env : Env
  trace : List Event

/-- Append one effect to the trace. -/
def Proc.emit (p : Proc) (e : Event) : Proc :=
  { p with trace := p.trace ++ [e] }

/-- `os.LookupEnv(key)`: the value and whether the variable is present. -/
def os.LookupEnv (key : String) (p : Proc) : Option String × Proc :=
  (p.env key, p.emit (Event.EnvRead key))

/-- `os.Getenv(key)`: the value, or the empty string when the variable is unset. -/
def os.Getenv (key : String) (p : Proc) : String × Proc :=
  ((p.env key).getD "", p.emit (Event.EnvRead key))

/-- `os.Setenv(key, value)`. -/
def os.Setenv (key value : String) (p : Proc) : Proc :=
  { env := fun k => if k = key then some value else p.env k,
    trace := p.trace ++ [Event.EnvWrite key value] }

/-- `fmt.Println(s)`: writes `s` and a newline to standard output. -/
def fmt.Println (s : String) (p : Proc) : Proc :=
  p.emit (Event.Stdout (s ++ "\n"))

/-- `zap.NewAtomicLevelAt(l)`. -/
def zap.NewAtomicLevelAt (l : Level) : Level := l

/-- `zap.New(zapcore.NewCore(jsonEncoder, os.Stdout, lvl))`. -/
def zap.New (lvl : Level) (p : Proc) : Logger × Proc :=
  ({ level := lvl }, p.emit (Event.NewLogger lvl))

/-- `logger.Info(msg, fields...)`. -/
def Logger.Info (l : Logger) (msg : String) (fields : List Field) (p : Proc) : Proc :=
  p.emit (Event.Log l Level.Info msg fields)

/-- `logger.Warn(msg, fields...)`. -/
def Logger.Warn (l : Logger) (msg : String) (fields : List Field) (p : Proc) : Proc :=
  p.emit (Event.Log l Level.Warn msg fields)

/-- A log record written to the sink. -/
structure Record where
  level : Level
  msg : String
  fields : List Field
  deriving DecidableEq, Repr

/-- The record a logging call writes: `Logger.check` drops an entry whose level
is not enabled by the core (`Info` and `Warn` have no other effect). -/
def Event.record? : Event → Option Record
  | .Log l lvl msg fields => if l.level.Enabled lvl then some ⟨lvl, msg, fields⟩ else none
  | _ => none

/-- The log records written by a trace, oldest first. -/
def records (t : List Event) : List Record := t.filterMap Event.record?

/-- What the program needs from outside `main.go`: the level parser of `zap`
and the two entry points of package `internal/lifecycle`.  `NewManager` is
given the environment of the process at the moment of the call.  Both entry
points are functions here: the executions described are those in which
`NewManager` and `Run` return, and `none` stands for a nil error. -/
structure Externals where
  ParseAtomicLevel : String → Except GoError Level
  NewManager : Env → Ctx → Logger → String → Ctx × Manager
  Run : Manager → Ctx → Option GoError

/-! ## `main.go` -/

/-- `initLogger` (main.go, lines 61-77). -/
def initLogger (x : Externals) (p : Proc) : Logger × Proc :=
  let lvl := zap.NewAtomicLevelAt Level.Info
  let (envLvl, p) := os.Getenv "OPENTELEMETRY_EXTENSION_LOG_LEVEL" p
  let parsed := x.ParseAtomicLevel envLvl
  let lvl := match parsed with
    | .ok userLvl => userLvl
    | .error _ => lvl
  let (l, p) := zap.New lvl p
  let p := match parsed with
    | .error err =>
        if envLvl ≠ "" then
          l.Warn "unable to parse log level from environment" [zap.Error (some err)] p
        else p
    | .ok _ => p
  (l, p)

/-- How the process ends: `main` returns (the Go runtime then exits with
status 0) or `os.Exit(code)` is called. -/
inductive Termination where
  | Returned
  | Exit (code : Nat)
  deriving DecidableEq, Repr

/-- The exit status of the process. -/
def Termination.status : Termination → Nat
  | .Returned => 0
  | .Exit code => code

/-- The message of the deprecation warning (main.go, line 51). -/
def deprecationMsg : String :=
  "SUMOLOGIC_HTTP_TRACES_ENDPOINT_URL is deprecated. Use SUMO_OTLP_HTTP_ENDPOINT_URL environment variable instead. Please see OTLP/http endpoint generation guide https://help.sumologic.com/docs/send-data/hosted-collectors/http-source/otlp/."

/-- The deprecated-endpoint block of `main` (main.go, lines 48-53). -/
def remapDeprecatedEndpoint (logger : Logger) (p : Proc) : Proc :=
  let (found, p) := os.LookupEnv "SUMOLOGIC_HTTP_TRACES_ENDPOINT_URL" p
  match found with
  | some sumoLogicOtlpHttpEndpoint =>
      let p := logger.Warn deprecationMsg [] p
      os.Setenv "SUMO_OTLP_HTTP_ENDPOINT_URL" sumoLogicOtlpHttpEndpoint p
  | none => p

/-- `main` (main.go, lines 37-59).  `Version` is the link-time variable,
`versionFlag` the value of `*versionFlag` once `flag.Parse()` has returned. -/
def main (x : Externals) (Version : String) (versionFlag : Bool) (p : Proc) :
    Proc × Termination :=
  if versionFlag then
    (fmt.Println Version p, Termination.Returned)
  else
    let (logger, p) := initLogger x p
    let p := logger.Info "Launching OpenTelemetry Lambda extension"
      [zap.String "version" Version] p
    let p := remapDeprecatedEndpoint logger p
    let (ctx, lm) := x.NewManager p.env Ctx.Background logger Version
    let p := p.emit (Event.NewManager p.env Ctx.Background logger Version)
    let result := x.Run lm ctx
    let p := p.emit (Event.Run lm ctx)
    let p := logger.Info "done" [zap.Error result] p
    (p, Termination.Returned)

/-- A freshly started process: the given environment, nothing done yet. -/
def start (env : Env) : Proc := { env := env, trace := [] }

/-! ## Grace period of the lifecycle manager -/

/-- Modelled from the spec: the grace period that the lifecycle manager's `Run`
passes to `Stop` (package `internal/lifecycle` is not among the sources).  It
is derived from the shutdown event's deadline budget, bounded below by the
configured minimum and above by the configured maximum. -/
def graceTimeout (minGrace maxGrace deadlineBudget : Int) : Int :=
  min maxGrace (max minGrace deadlineBudget)

/-! ## Observations on traces -/

/-- The event is a write of an environment variable. -/
def Event.isEnvWrite : Event → Bool
  | .EnvWrite _ _ => true
  | _ => false

/-- The event is a call of `lifecycle.NewManager`. -/
def Event.isNewManager : Event → Bool
  | .NewManager _ _ _ _ => true
  | _ => false

/-- The event is a call of `Run` on a manager. -/
def Event.isRun : Event → Bool
  | .Run _ _ => true
  | _ => false

/-- The event is a logging call with message `m`. -/
def Event.isLogCall (m : String) : Event → Bool
  | .Log _ _ msg _ => decide (msg = m)
  | _ => false

/-- Some written record of the trace has message `m`. -/
def hasRecord (m : String) (t : List Event) : Bool :=
  (records t).any (fun r => decide (r.msg = m))

/-- The environment handed over at the first `NewManager` call of a trace. -/
def envAtNewManager : List Event → Option Env
  | [] => none
  | .NewManager env _ _ _ :: _ => some env
  | _ :: t => envAtNewManager t

/-! ## Concrete worlds and environments -/

/-- A world with the real level parser whose `Run` fails. -/
def failingWorld : Externals :=
  { ParseAtomicLevel := zap.ParseAtomicLevel,
    NewManager := fun _ _ _ _ => (Ctx.Derived 1, { handle := 0 }),
    Run := fun _ _ => some "registration failed" }

/-- A world with the real level parser whose `Run` returns nil. -/
def cleanWorld : Externals :=
  { ParseAtomicLevel := zap.ParseAtomicLevel,
    NewManager := fun _ _ _ _ => (Ctx.Derived 1, { handle := 0 }),
    Run := fun _ _ => none }

/-- An environment given as a list of bindings (first binding of a key wins). -/
def envOf (bindings : List (String × String)) : Env :=
  fun k => bindings.lookup k

/-! ## Helper lemmas -/

/-- `initLogger` writes no environment variable. -/
theorem initLogger_env (x : Externals) (p : Proc) : (initLogger x p).2.env = p.env := by
  unfold initLogger
  simp only [os.Getenv, zap.New, Logger.Warn, Proc.emit]
  cases x.ParseAtomicLevel ((p.env "OPENTELEMETRY_EXTENSION_LOG_LEVEL").getD "") with
  | ok l => rfl
  | error err =>
    by_cases h : (p.env "OPENTELEMETRY_EXTENSION_LOG_LEVEL").getD "" = ""
    · simp [h]
    · simp [h]

/-- The logger `initLogger` returns. -/
theorem initLogger_logger (x : Externals) (p : Proc) :
    (initLogger x p).1 =
      { level := match x.ParseAtomicLevel ((p.env "OPENTELEMETRY_EXTENSION_LOG_LEVEL").getD "") with
          | .ok userLvl => userLvl
          | .error _ => Level.Info } := by
  unfold initLogger
  simp only [os.Getenv, zap.New, zap.NewAtomicLevelAt]

/-- The effects of `initLogger`. -/
theorem initLogger_trace (x : Externals) (p : Proc) :
    (initLogger x p).2.trace =
      p.trace ++ [Event.EnvRead "OPENTELEMETRY_EXTENSION_LOG_LEVEL",
                  Event.NewLogger (initLogger x p).1.level] ++
        (match x.ParseAtomicLevel ((p.env "OPENTELEMETRY_EXTENSION_LOG_LEVEL").getD "") with
          | .ok _ => []
          | .error err =>
            if (p.env "OPENTELEMETRY_EXTENSION_LOG_LEVEL").getD "" = "" then []
            else [Event.Log (initLogger x p).1 Level.Warn
                    "unable to parse log level from environment" [Field.Error "error" err]]) := by
  unfold initLogger
  simp only [os.Getenv, zap.New, Logger.Warn, Proc.emit, zap.NewAtomicLevelAt, zap.Error]
  cases x.ParseAtomicLevel ((p.env "OPENTELEMETRY_EXTENSION_LOG_LEVEL").getD "") with
  | ok l => simp
  | error err =>
    by_cases h : (p.env "OPENTELEMETRY_EXTENSION_LOG_LEVEL").getD "" = ""
    · simp [h]
    · simp [h]

/-- The environment after the remapping block. -/
theorem remap_env (L : Logger) (p : Proc) :
    (remapDeprecatedEndpoint L p).env =
      match p.env "SUMOLOGIC_HTTP_TRACES_ENDPOINT_URL" with
      | some v => fun k => if k = "SUMO_OTLP_HTTP_ENDPOINT_URL" then some v else p.env k
      | none => p.env := by
  unfold remapDeprecatedEndpoint
  simp only [os.LookupEnv, Logger.Warn, os.Setenv, Proc.emit]
  cases p.env "SUMOLOGIC_HTTP_TRACES_ENDPOINT_URL" <;> rfl

/-- The effects of the remapping block. -/
theorem remap_trace (L : Logger) (p : Proc) :
    (remapDeprecatedEndpoint L p).trace =
      p.trace ++ [Event.EnvRead "SUMOLOGIC_HTTP_TRACES_ENDPOINT_URL"] ++
        match p.env "SUMOLOGIC_HTTP_TRACES_ENDPOINT_URL" with
        | some v => [Event.Log L Level.Warn deprecationMsg [],
                     Event.EnvWrite "SUMO_OTLP_HTTP_ENDPOINT_URL" v]
        | none => [] := by
  unfold remapDeprecatedEndpoint
  simp only [os.LookupEnv, Logger.Warn, os.Setenv, Proc.emit]
  cases p.env "SUMOLOGIC_HTTP_TRACES_ENDPOINT_URL" <;> simp

/-- The state of the process when `main` reaches the `NewManager` call (lines 45-53 done). -/
theorem main_unfold (x : Externals) (Version : String) (p : Proc) :
    let L := (initLogger x p).1
    let q := remapDeprecatedEndpoint L
      (L.Info "Launching OpenTelemetry Lambda extension" [zap.String "version" Version]
        (initLogger x p).2)
    let nm := x.NewManager q.env Ctx.Background L Version
    main x Version false p =
      ({ env := q.env,
         trace := q.trace ++ [Event.NewManager q.env Ctx.Background L Version,
                              Event.Run nm.2 nm.1,
                              Event.Log L Level.Info "done" [zap.Error (x.Run nm.2 nm.1)]] },
       Termination.Returned) := by
  simp [main, Logger.Info, Proc.emit]

/-- The state in which `main` reaches the `NewManager` call: its environment. -/
theorem pre_env (x : Externals) (Version : String) (p : Proc) :
    (remapDeprecatedEndpoint (initLogger x p).1
      ((initLogger x p).1.Info "Launching OpenTelemetry Lambda extension"
        [zap.String "version" Version] (initLogger x p).2)).env =
      match p.env "SUMOLOGIC_HTTP_TRACES_ENDPOINT_URL" with
      | some v => fun k => if k = "SUMO_OTLP_HTTP_ENDPOINT_URL" then some v else p.env k
      | none => p.env := by
  rw [remap_env]
  simp only [Logger.Info, Proc.emit, initLogger_env]

/-- The state in which `main` reaches the `NewManager` call: its trace. -/
theorem pre_trace (x : Externals) (Version : String) (p : Proc) :
    (remapDeprecatedEndpoint (initLogger x p).1
      ((initLogger x p).1.Info "Launching OpenTelemetry Lambda extension"
        [zap.String "version" Version] (initLogger x p).2)).trace =
      (initLogger x p).2.trace ++
        [Event.Log (initLogger x p).1 Level.Info "Launching OpenTelemetry Lambda extension"
          [Field.String "version" Version]] ++
        [Event.EnvRead "SUMOLOGIC_HTTP_TRACES_ENDPOINT_URL"] ++
        match p.env "SUMOLOGIC_HTTP_TRACES_ENDPOINT_URL" with
        | some v => [Event.Log (initLogger x p).1 Level.Warn deprecationMsg [],
                     Event.EnvWrite "SUMO_OTLP_HTTP_ENDPOINT_URL" v]
        | none => [] := by
  rw [remap_trace]
  simp only [Logger.Info, Proc.emit, initLogger_env, zap.String]

/-- The environment after the remapping block depends on the environment only. -/
theorem pre_env_start (x : Externals) (Version : String) (p : Proc) :
    (remapDeprecatedEndpoint (initLogger x p).1
      ((initLogger x p).1.Info "Launching OpenTelemetry Lambda extension"
        [zap.String "version" Version] (initLogger x p).2)).env =
      (remapDeprecatedEndpoint (initLogger x p).1 (start p.env)).env := by
  rw [pre_env, remap_env]
  rfl

/-- The effects up to the `NewManager` call, the remapping block set apart. -/
theorem pre_trace_start (x : Externals) (Version : String) (p : Proc) :
    (remapDeprecatedEndpoint (initLogger x p).1
      ((initLogger x p).1.Info "Launching OpenTelemetry Lambda extension"
        [zap.String "version" Version] (initLogger x p).2)).trace =
      (initLogger x p).2.trace ++
        [Event.Log (initLogger x p).1 Level.Info "Launching OpenTelemetry Lambda extension"
          [zap.String "version" Version]] ++
        (remapDeprecatedEndpoint (initLogger x p).1 (start p.env)).trace := by
  rw [pre_trace, remap_trace]
  simp [start, zap.String]

/-- The whole trace of `main` without `-v`. -/
theorem main_trace_eq (x : Externals) (Version : String) (env : Env) :
    (main x Version false (start env)).1.trace =
        (initLogger x (start env)).2.trace ++
          [Event.Log (initLogger x (start env)).1 Level.Info
            "Launching OpenTelemetry Lambda extension" [zap.String "version" Version]] ++
          (remapDeprecatedEndpoint (initLogger x (start env)).1 (start env)).trace ++
          [Event.NewManager (remapDeprecatedEndpoint (initLogger x (start env)).1 (start env)).env
              Ctx.Background (initLogger x (start env)).1 Version,
            Event.Run
              (x.NewManager (remapDeprecatedEndpoint (initLogger x (start env)).1 (start env)).env
                Ctx.Background (initLogger x (start env)).1 Version).2
              (x.NewManager (remapDeprecatedEndpoint (initLogger x (start env)).1 (start env)).env
                Ctx.Background (initLogger x (start env)).1 Version).1,
            Event.Log (initLogger x (start env)).1 Level.Info "done"
              [zap.Error (x.Run
                (x.NewManager (remapDeprecatedEndpoint (initLogger x (start env)).1 (start env)).env
                  Ctx.Background (initLogger x (start env)).1 Version).2
                (x.NewManager (remapDeprecatedEndpoint (initLogger x (start env)).1 (start env)).env
                  Ctx.Background (initLogger x (start env)).1 Version).1)]] := by
  rw [main_unfold]
  simp only [pre_trace_start, pre_env_start]
  rfl

/-- Neither `initLogger` nor the remapping block calls into the lifecycle package
or makes the launch or the final logging call. -/
theorem pre_effects (x : Externals) (env : Env) :
    ((initLogger x (start env)).2.trace ++
        (remapDeprecatedEndpoint (initLogger x (start env)).1 (start env)).trace).all
      (fun e => !e.isLogCall "Launching OpenTelemetry Lambda extension" &&
        !e.isLogCall "done" && !e.isNewManager && !e.isRun) = true := by
  rw [initLogger_trace, remap_trace]
  simp only [start]
  cases x.ParseAtomicLevel ((env "OPENTELEMETRY_EXTENSION_LOG_LEVEL").getD "") <;>
    cases env "SUMOLOGIC_HTTP_TRACES_ENDPOINT_URL" <;>
    by_cases h0 : (env "OPENTELEMETRY_EXTENSION_LOG_LEVEL").getD "" = "" <;>
    simp [h0, Event.isRun, Event.isLogCall, Event.isNewManager, deprecationMsg]

/-- The first `NewManager` call of a trace is found behind effects of other kinds. -/
theorem envAtNewManager_append (pre rest : List Event) (e : Env) (c : Ctx) (L : Logger)
    (v : String) (h : pre.all (fun ev => !ev.isNewManager) = true) :
    envAtNewManager (pre ++ Event.NewManager e c L v :: rest) = some e := by
  induction pre with
  | nil => rfl
  | cons a t ih =>
    simp only [List.all_cons, Bool.and_eq_true] at h
    cases a <;> simp_all [envAtNewManager, Event.isNewManager]

/-- Running the remapping block twice leaves the environment of one run. -/
theorem remap_idempotent (L : Logger) (p : Proc) :
    (remapDeprecatedEndpoint L (remapDeprecatedEndpoint L p)).env =
      (remapDeprecatedEndpoint L p).env := by
  rw [remap_env, remap_env]
  cases h : p.env "SUMOLOGIC_HTTP_TRACES_ENDPOINT_URL" with
  | none => simp [h]
  | some v =>
    simp only [h]
    have hne : ¬ ("SUMOLOGIC_HTTP_TRACES_ENDPOINT_URL" = "SUMO_OTLP_HTTP_ENDPOINT_URL") := by
      decide
    simp only [hne, if_false, h]
    funext k
    by_cases hk : k = "SUMO_OTLP_HTTP_ENDPOINT_URL" <;> simp [hk]

/-! ## Claims -/

/-- C1 (amended): the exit status of the process does not reflect what `Run`
returned. For every world, version, flag value and starting state, `main`
returns normally and the process exits with status 0; and without `-v` the last
three effects of `main` are the `NewManager` call, the call of `Run` on the
manager and context it returned, and the logging call `logger.Info("done",
zap.Error(e))` where `e` is the result of that `Run` call, nil or not, whose
record is written exactly when the logger's level enables `Info`. The result of
`Run` reaches the final logging call and nothing else. -/
theorem main_exit_status_zero (x : Externals) (Version : String) (versionFlag : Bool)
    (p : Proc) :
    (main x Version versionFlag p).2 = Termination.Returned ∧
      (main x Version versionFlag p).2.status = 0 ∧
      ∃ (pre : List Event) (envNM : Env),
        (main x Version false p).1.trace =
            pre ++ [Event.NewManager envNM Ctx.Background (initLogger x p).1 Version,
              Event.Run (x.NewManager envNM Ctx.Background (initLogger x p).1 Version).2
                (x.NewManager envNM Ctx.Background (initLogger x p).1 Version).1,
              Event.Log (initLogger x p).1 Level.Info "done"
                [zap.Error (x.Run
                  (x.NewManager envNM Ctx.Background (initLogger x p).1 Version).2
                  (x.NewManager envNM Ctx.Background (initLogger x p).1 Version).1)]] ∧
          (main x Version false p).2.status = 0 ∧
          records (main x Version false p).1.trace =
            records pre ++
              (if (initLogger x p).1.level.Enabled Level.Info
                then [{ level := Level.Info, msg := "done",
                        fields := [zap.Error (x.Run
                          (x.NewManager envNM Ctx.Background (initLogger x p).1 Version).2
                          (x.NewManager envNM Ctx.Background (initLogger x p).1 Version).1)] }]
                else []) := by
  refine ⟨?_, ?_, ?_⟩
  · cases versionFlag
    · rw [main_unfold]
    · rfl
  · cases versionFlag
    · rw [main_unfold]; rfl
    · rfl
  · rw [main_unfold]
    refine ⟨_, _, rfl, rfl, ?_⟩
    simp only [records, List.filterMap_append]
    cases hb : (initLogger x p).1.level.Enabled Level.Info <;>
      simp [Event.record?, hb]

/-- C1 (counterexample): without `-v`, in a world where `Run` is called and
returns the non-nil error "registration failed", the process still exits with
status 0. -/
theorem run_error_exit_status_zero :
    ((main failingWorld "latest" false (start (envOf []))).1.trace.any Event.isRun = true ∧
      failingWorld.Run { handle := 0 } (Ctx.Derived 1) = some "registration failed") ∧
      (main failingWorld "latest" false (start (envOf []))).2.status = 0 := by
  decide

/-- C2: with the `-v` flag set, for every world, environment and `Version`, the
only effect of `main` is one `fmt.Println(Version)` (the version and a newline
on standard output): no logger is created, no environment variable is read or
written, no manager is constructed or run, the environment is unchanged, and
`main` returns normally, exit status 0. -/
theorem main_version_flag (x : Externals) (Version : String) (env : Env) :
    main x Version true (start env) =
        ({ env := env, trace := [Event.Stdout (Version ++ "\n")] }, Termination.Returned) ∧
      (main x Version true (start env)).2.status = 0 := by
  exact ⟨rfl, rfl⟩

/-- C3 (amended): when `SUMOLOGIC_HTTP_TRACES_ENDPOINT_URL` is present with value
`v`, the trace of `main` without `-v` ends with the `NewManager` call, the `Run`
call and the final logging call, nothing before them being a `NewManager` call;
the environment handed to `NewManager` (and left at the end) has
`SUMO_OTLP_HTTP_ENDPOINT_URL` equal to `v`; the call `logger.Warn` with the
deprecation message was made before `NewManager`, and its record was written
exactly when the logger's level enables `Warn`; no environment write follows
the `NewManager` call. -/
theorem remap_before_NewManager (x : Externals) (Version : String) (env : Env) (v : String)
    (h : env "SUMOLOGIC_HTTP_TRACES_ENDPOINT_URL" = some v) :
    ∃ (pre : List Event) (envNM : Env),
      (main x Version false (start env)).1.trace =
          pre ++ [Event.NewManager envNM Ctx.Background (initLogger x (start env)).1 Version,
            Event.Run (x.NewManager envNM Ctx.Background (initLogger x (start env)).1 Version).2
              (x.NewManager envNM Ctx.Background (initLogger x (start env)).1 Version).1,
            Event.Log (initLogger x (start env)).1 Level.Info "done"
              [zap.Error (x.Run
                (x.NewManager envNM Ctx.Background (initLogger x (start env)).1 Version).2
                (x.NewManager envNM Ctx.Background (initLogger x (start env)).1 Version).1)]] ∧
        pre.all (fun e => !e.isNewManager) = true ∧
        envNM "SUMO_OTLP_HTTP_ENDPOINT_URL" = some v ∧
        (main x Version false (start env)).1.env = envNM ∧
        Event.Log (initLogger x (start env)).1 Level.Warn deprecationMsg [] ∈ pre ∧
        hasRecord deprecationMsg pre = (initLogger x (start env)).1.level.Enabled Level.Warn := by
  rw [main_unfold]
  refine ⟨_, _, rfl, ?_, ?_, rfl, ?_, ?_⟩
  · rw [pre_trace, initLogger_trace]
    simp only [start, h]
    cases x.ParseAtomicLevel ((env "OPENTELEMETRY_EXTENSION_LOG_LEVEL").getD "") with
    | ok l => simp [Event.isNewManager]
    | error err =>
      by_cases h0 : (env "OPENTELEMETRY_EXTENSION_LOG_LEVEL").getD "" = ""
      · simp [h0, Event.isNewManager]
      · simp [h0, Event.isNewManager]
  · rw [pre_env]
    simp only [start, h]
    simp
  · rw [pre_trace]
    simp only [start, h]
    simp
  · rw [pre_trace, initLogger_trace]
    simp only [start, h, initLogger_logger]
    cases x.ParseAtomicLevel ((env "OPENTELEMETRY_EXTENSION_LOG_LEVEL").getD "") with
    | ok l =>
      cases l <;> simp [hasRecord, records, Event.record?, deprecationMsg, Level.Enabled, Level.toInt]
    | error err =>
      by_cases h0 : (env "OPENTELEMETRY_EXTENSION_LOG_LEVEL").getD "" = ""
      · simp [h0, hasRecord, records, Event.record?, deprecationMsg, Level.Enabled, Level.toInt]
      · simp [h0, hasRecord, records, Event.record?, deprecationMsg, Level.Enabled, Level.toInt]

/-- C3 (counterexample): with `SUMOLOGIC_HTTP_TRACES_ENDPOINT_URL` present and
`OPENTELEMETRY_EXTENSION_LOG_LEVEL=error`, the whole run of `main` writes no
record carrying the deprecation message: the warning is not logged. -/
theorem deprecation_warning_dropped_at_error_level :
    envOf [("SUMOLOGIC_HTTP_TRACES_ENDPOINT_URL", "https://old.example"),
           ("OPENTELEMETRY_EXTENSION_LOG_LEVEL", "error")]
        "SUMOLOGIC_HTTP_TRACES_ENDPOINT_URL" = some "https://old.example" ∧
      hasRecord deprecationMsg
        (main cleanWorld "latest" false
          (start (envOf [("SUMOLOGIC_HTTP_TRACES_ENDPOINT_URL", "https://old.example"),
                         ("OPENTELEMETRY_EXTENSION_LOG_LEVEL", "error")]))).1.trace = false := by
  decide

/-- C3 (witness): the amended claim at an environment holding only the deprecated
variable. -/
theorem remap_before_NewManager_witness :
    envOf [("SUMOLOGIC_HTTP_TRACES_ENDPOINT_URL", "https://old.example")]
        "SUMOLOGIC_HTTP_TRACES_ENDPOINT_URL" = some "https://old.example" ∧
    ∃ (pre : List Event) (envNM : Env),
      (main cleanWorld "latest" false
          (start (envOf [("SUMOLOGIC_HTTP_TRACES_ENDPOINT_URL", "https://old.example")]))).1.trace =
          pre ++ [Event.NewManager envNM Ctx.Background { level := Level.Info } "latest",
            Event.Run { handle := 0 } (Ctx.Derived 1),
            Event.Log { level := Level.Info } Level.Info "done" [Field.Skip]] ∧
        envNM "SUMO_OTLP_HTTP_ENDPOINT_URL" = some "https://old.example" ∧
        hasRecord deprecationMsg pre = true := by
  obtain ⟨pre, envNM, h1, _, h3, _, _, h6⟩ :=
    remap_before_NewManager cleanWorld "latest"
      (envOf [("SUMOLOGIC_HTTP_TRACES_ENDPOINT_URL", "https://old.example")])
      "https://old.example" (by decide)
  exact ⟨by decide, pre, envNM, h1, h3, h6⟩

/-- C4: for every level parser and every state of the environment, `initLogger`
returns a logger, whose level is the parsed level when the value of
`OPENTELEMETRY_EXTENSION_LOG_LEVEL` (the empty string when unset) parses, and
`Info` otherwise; exactly one logger is created, with that level. -/
theorem initLogger_level (x : Externals) (p : Proc) :
    (initLogger x p).1.level =
        (match x.ParseAtomicLevel ((p.env "OPENTELEMETRY_EXTENSION_LOG_LEVEL").getD "") with
          | .ok userLvl => userLvl
          | .error _ => Level.Info) ∧
      ∃ rest, (initLogger x p).2.trace =
        p.trace ++ [Event.EnvRead "OPENTELEMETRY_EXTENSION_LOG_LEVEL",
                    Event.NewLogger (initLogger x p).1.level] ++ rest := by
  refine ⟨?_, _, initLogger_trace x p⟩
  rw [initLogger_logger]

/-- C5 (amended): without `-v`, the last two effects of `main` are the `Run` call
and then the logging call `logger.Info("done", zap.Error(e))` with `e` the result
of that `Run`; nothing before them is a `Run` call or a "done" logging call; the
"done" record is written, as the last record, exactly when the logger's level
enables `Info`, and otherwise no record is written for it. -/
theorem done_logged_last (x : Externals) (Version : String) (env : Env) :
    ∃ (pre : List Event) (lm : Manager) (ctx : Ctx),
      (main x Version false (start env)).1.trace =
          pre ++ [Event.Run lm ctx,
            Event.Log (initLogger x (start env)).1 Level.Info "done" [zap.Error (x.Run lm ctx)]] ∧
        pre.all (fun e => !e.isRun && !e.isLogCall "done") = true ∧
        records (main x Version false (start env)).1.trace =
          records pre ++
            (if (initLogger x (start env)).1.level.Enabled Level.Info
              then [{ level := Level.Info, msg := "done", fields := [zap.Error (x.Run lm ctx)] }]
              else []) := by
  rw [main_unfold]
  refine ⟨_ ++ [_], _, _, by simp; rfl, ?_, ?_⟩
  · rw [pre_trace, initLogger_trace]
    simp only [start]
    cases x.ParseAtomicLevel ((env "OPENTELEMETRY_EXTENSION_LOG_LEVEL").getD "") <;>
      cases env "SUMOLOGIC_HTTP_TRACES_ENDPOINT_URL" <;>
      by_cases h0 : (env "OPENTELEMETRY_EXTENSION_LOG_LEVEL").getD "" = "" <;>
      simp [h0, Event.isRun, Event.isLogCall, deprecationMsg]
  · simp only [records, List.filterMap_append]
    cases hb : (initLogger x (start env)).1.level.Enabled Level.Info <;>
      simp [Event.record?, hb]

/-- C5 (counterexample): with `OPENTELEMETRY_EXTENSION_LOG_LEVEL=warn` and a `Run`
that returns the error "registration failed", `Run` is called and no "done"
record is written; the run writes no record at all. -/
theorem done_record_dropped_at_warn_level :
    (main failingWorld "latest" false
        (start (envOf [("OPENTELEMETRY_EXTENSION_LOG_LEVEL", "warn")]))).1.trace.any Event.isRun
        = true ∧
      hasRecord "done"
        (main failingWorld "latest" false
          (start (envOf [("OPENTELEMETRY_EXTENSION_LOG_LEVEL", "warn")]))).1.trace = false ∧
      records (main failingWorld "latest" false
          (start (envOf [("OPENTELEMETRY_EXTENSION_LOG_LEVEL", "warn")]))).1.trace = [] := by
  decide

/-- C6 (amended): without `-v`, the trace of `main` is, in this order: the
effects of `initLogger`; the logging call `Info("Launching ...", version = Version)`
on the logger `initLogger` returned; the effects of the remapping block; the call
`NewManager(context.Background(), logger, Version)` with that same logger; the
call of `Run` on the manager and with the context that `NewManager` returned;
the final logging call. No effect of `initLogger` or of the remapping block is a
launch call, a `NewManager` call or a `Run` call. The launch record is written
exactly when the logger's level enables `Info`. -/
theorem main_effect_order (x : Externals) (Version : String) (env : Env) :
    (main x Version false (start env)).1.trace =
        (initLogger x (start env)).2.trace ++
          [Event.Log (initLogger x (start env)).1 Level.Info
            "Launching OpenTelemetry Lambda extension" [zap.String "version" Version]] ++
          (remapDeprecatedEndpoint (initLogger x (start env)).1 (start env)).trace ++
          [Event.NewManager (remapDeprecatedEndpoint (initLogger x (start env)).1 (start env)).env
              Ctx.Background (initLogger x (start env)).1 Version,
            Event.Run
              (x.NewManager (remapDeprecatedEndpoint (initLogger x (start env)).1 (start env)).env
                Ctx.Background (initLogger x (start env)).1 Version).2
              (x.NewManager (remapDeprecatedEndpoint (initLogger x (start env)).1 (start env)).env
                Ctx.Background (initLogger x (start env)).1 Version).1,
            Event.Log (initLogger x (start env)).1 Level.Info "done"
              [zap.Error (x.Run
                (x.NewManager (remapDeprecatedEndpoint (initLogger x (start env)).1 (start env)).env
                  Ctx.Background (initLogger x (start env)).1 Version).2
                (x.NewManager (remapDeprecatedEndpoint (initLogger x (start env)).1 (start env)).env
                  Ctx.Background (initLogger x (start env)).1 Version).1)]] ∧
      ((initLogger x (start env)).2.trace ++
          (remapDeprecatedEndpoint (initLogger x (start env)).1 (start env)).trace).all
        (fun e => !e.isLogCall "Launching OpenTelemetry Lambda extension" &&
          !e.isNewManager && !e.isRun) = true ∧
      hasRecord "Launching OpenTelemetry Lambda extension"
          (main x Version false (start env)).1.trace =
        (initLogger x (start env)).1.level.Enabled Level.Info := by
  refine ⟨main_trace_eq x Version env, ?_, ?_⟩
  · have h := pre_effects x env
    rw [List.all_eq_true] at h ⊢
    intro e he
    have := h e he
    simp only [Bool.and_eq_true] at this ⊢
    exact ⟨⟨this.1.1.1, this.1.2⟩, this.2⟩
  · rw [main_unfold]
    simp only [pre_trace_start, pre_env_start]
    rw [initLogger_trace, remap_trace]
    simp only [start, initLogger_logger]
    cases x.ParseAtomicLevel ((env "OPENTELEMETRY_EXTENSION_LOG_LEVEL").getD "") with
    | ok l =>
      cases env "SUMOLOGIC_HTTP_TRACES_ENDPOINT_URL" <;> cases l <;>
        simp [hasRecord, records, Event.record?, deprecationMsg, Level.Enabled, Level.toInt]
    | error err =>
      cases env "SUMOLOGIC_HTTP_TRACES_ENDPOINT_URL" <;>
        by_cases h0 : (env "OPENTELEMETRY_EXTENSION_LOG_LEVEL").getD "" = "" <;>
        simp [h0, hasRecord, records, Event.record?, deprecationMsg, Level.Enabled, Level.toInt]

/-- C6 (counterexample): with `OPENTELEMETRY_EXTENSION_LOG_LEVEL=fatal`, `main`
constructs and runs the manager but no launch record is written. -/
theorem launch_record_dropped_at_fatal_level :
    (main cleanWorld "latest" false
        (start (envOf [("OPENTELEMETRY_EXTENSION_LOG_LEVEL", "fatal")]))).1.trace.any
        Event.isNewManager = true ∧
      hasRecord "Launching OpenTelemetry Lambda extension"
        (main cleanWorld "latest" false
          (start (envOf [("OPENTELEMETRY_EXTENSION_LOG_LEVEL", "fatal")]))).1.trace = false := by
  decide

/-- C7: with bounds `minGrace <= maxGrace`, the grace period is `minGrace` for a
deadline budget below the minimum, `maxGrace` for one above the maximum, and the
budget itself for one within the bounds. -/
theorem graceTimeout_clamp (minGrace maxGrace d : Int) (h : minGrace ≤ maxGrace) :
    (d < minGrace → graceTimeout minGrace maxGrace d = minGrace) ∧
      (maxGrace < d → graceTimeout minGrace maxGrace d = maxGrace) ∧
      (minGrace ≤ d → d ≤ maxGrace → graceTimeout minGrace maxGrace d = d) := by
  unfold graceTimeout
  refine ⟨fun h1 => ?_, fun h2 => ?_, fun h3 h4 => ?_⟩
  · rw [max_eq_left (le_of_lt h1), min_eq_right h]
  · rw [max_eq_right (le_trans h (le_of_lt h2)), min_eq_left (le_of_lt h2)]
  · rw [max_eq_right h3, min_eq_right h4]

/-- C7 (witness): bounds 500 and 5000 with budgets 100, 9000 and 2000. -/
theorem graceTimeout_clamp_witness :
    (500 : Int) ≤ 5000 ∧ graceTimeout 500 5000 100 = 500 ∧
      graceTimeout 500 5000 9000 = 5000 ∧ graceTimeout 500 5000 2000 = 2000 :=
  ⟨by decide,
   (graceTimeout_clamp 500 5000 100 (by decide)).1 (by decide),
   (graceTimeout_clamp 500 5000 9000 (by decide)).2.1 (by decide),
   (graceTimeout_clamp 500 5000 2000 (by decide)).2.2 (by decide) (by decide)⟩

/-- C8: without `-v`, the environment handed to `NewManager` (which is also the
environment at the end of `main`) agrees with the original environment on every
variable other than `SUMO_OTLP_HTTP_ENDPOINT_URL`, the deprecated variable
included; and when `SUMOLOGIC_HTTP_TRACES_ENDPOINT_URL` is absent it is the
original environment, `main` writes no variable, and no logging call (hence no
record) carries the deprecation message. -/
theorem remap_frame (x : Externals) (Version : String) (env : Env) :
    ∃ envNM : Env,
      envAtNewManager (main x Version false (start env)).1.trace = some envNM ∧
        (main x Version false (start env)).1.env = envNM ∧
        (∀ k, k ≠ "SUMO_OTLP_HTTP_ENDPOINT_URL" → envNM k = env k) ∧
        envNM "SUMOLOGIC_HTTP_TRACES_ENDPOINT_URL" = env "SUMOLOGIC_HTTP_TRACES_ENDPOINT_URL" ∧
        (env "SUMOLOGIC_HTTP_TRACES_ENDPOINT_URL" = none →
          envNM = env ∧
            (main x Version false (start env)).1.trace.any Event.isEnvWrite = false ∧
            (main x Version false (start env)).1.trace.any (Event.isLogCall deprecationMsg)
              = false ∧
            hasRecord deprecationMsg (main x Version false (start env)).1.trace = false) := by
  have hframe : ∀ k, k ≠ "SUMO_OTLP_HTTP_ENDPOINT_URL" →
      (remapDeprecatedEndpoint (initLogger x (start env)).1 (start env)).env k = env k := by
    intro k hk
    rw [remap_env]
    simp only [start]
    cases env "SUMOLOGIC_HTTP_TRACES_ENDPOINT_URL" <;> simp [hk]
  refine ⟨(remapDeprecatedEndpoint (initLogger x (start env)).1 (start env)).env,
    ?_, ?_, hframe, hframe _ (by decide), ?_⟩
  · rw [main_trace_eq]
    apply envAtNewManager_append
    have h := pre_effects x env
    rw [List.all_eq_true] at h
    rw [List.all_eq_true]
    intro e he
    simp only [List.append_assoc, List.mem_append, List.mem_singleton] at he
    rcases he with he | he | he
    · have := h e (List.mem_append_left _ he)
      simp only [Bool.and_eq_true] at this
      exact this.1.2
    · subst he
      rfl
    · have := h e (List.mem_append_right _ he)
      simp only [Bool.and_eq_true] at this
      exact this.1.2
  · rw [main_unfold]
    exact pre_env_start x Version (start env)
  · intro habs
    refine ⟨?_, ?_, ?_, ?_⟩
    · rw [remap_env]
      simp only [start, habs]
    · rw [main_trace_eq, initLogger_trace, remap_trace]
      simp only [start, habs]
      cases x.ParseAtomicLevel ((env "OPENTELEMETRY_EXTENSION_LOG_LEVEL").getD "") <;>
        by_cases h0 : (env "OPENTELEMETRY_EXTENSION_LOG_LEVEL").getD "" = "" <;>
        simp [h0, Event.isEnvWrite]
    · rw [main_trace_eq, initLogger_trace, remap_trace]
      simp only [start, habs]
      cases x.ParseAtomicLevel ((env "OPENTELEMETRY_EXTENSION_LOG_LEVEL").getD "") <;>
        by_cases h0 : (env "OPENTELEMETRY_EXTENSION_LOG_LEVEL").getD "" = "" <;>
        simp [h0, Event.isLogCall, deprecationMsg]
    · rw [main_trace_eq, initLogger_trace, remap_trace]
      simp only [start, habs]
      cases x.ParseAtomicLevel ((env "OPENTELEMETRY_EXTENSION_LOG_LEVEL").getD "") <;>
        by_cases h0 : (env "OPENTELEMETRY_EXTENSION_LOG_LEVEL").getD "" = "" <;>
        cases hi : (initLogger x { env := env, trace := [] }).1.level.Enabled Level.Info <;>
        cases hw : (initLogger x { env := env, trace := [] }).1.level.Enabled Level.Warn <;>
        simp [h0, hi, hw, hasRecord, records, Event.record?, deprecationMsg]

/-- C8 (witness): an environment without the deprecated variable reaches
`NewManager` unchanged. -/
theorem remap_frame_witness :
    envOf [("HOME", "/root"), ("SUMO_OTLP_HTTP_ENDPOINT_URL", "https://new.example")]
        "SUMOLOGIC_HTTP_TRACES_ENDPOINT_URL" = none ∧
      ∃ envNM : Env,
        envAtNewManager (main cleanWorld "latest" false (start (envOf [("HOME", "/root"),
          ("SUMO_OTLP_HTTP_ENDPOINT_URL", "https://new.example")]))).1.trace = some envNM ∧
        envNM "HOME" = some "/root" ∧
        envNM = envOf [("HOME", "/root"),
          ("SUMO_OTLP_HTTP_ENDPOINT_URL", "https://new.example")] ∧
        hasRecord deprecationMsg (main cleanWorld "latest" false (start (envOf [("HOME", "/root"),
          ("SUMO_OTLP_HTTP_ENDPOINT_URL", "https://new.example")]))).1.trace = false := by
  obtain ⟨envNM, h1, _, h3, _, h5⟩ := remap_frame cleanWorld "latest"
    (envOf [("HOME", "/root"), ("SUMO_OTLP_HTTP_ENDPOINT_URL", "https://new.example")])
  exact ⟨by decide, envNM, h1, (h3 "HOME" (by decide)).trans (by decide),
    (h5 (by decide)).1, (h5 (by decide)).2.2.2⟩

/-- C9: `initLogger` makes the logging call "unable to parse log level from
environment", and writes its record, if and only if the value of
`OPENTELEMETRY_EXTENSION_LOG_LEVEL` (the empty string when unset) is non-empty
and fails to parse; whenever that record is written the logger's level is
`Info`. -/
theorem initLogger_warning_iff (x : Externals) (env : Env) :
    (hasRecord "unable to parse log level from environment"
          (initLogger x (start env)).2.trace = true ↔
        ((env "OPENTELEMETRY_EXTENSION_LOG_LEVEL").getD "" ≠ "" ∧
          ∃ err, x.ParseAtomicLevel ((env "OPENTELEMETRY_EXTENSION_LOG_LEVEL").getD "")
            = .error err)) ∧
      ((initLogger x (start env)).2.trace.any
          (Event.isLogCall "unable to parse log level from environment") = true ↔
        ((env "OPENTELEMETRY_EXTENSION_LOG_LEVEL").getD "" ≠ "" ∧
          ∃ err, x.ParseAtomicLevel ((env "OPENTELEMETRY_EXTENSION_LOG_LEVEL").getD "")
            = .error err)) ∧
      (hasRecord "unable to parse log level from environment"
          (initLogger x (start env)).2.trace = true →
        (initLogger x (start env)).1.level = Level.Info) := by
  rw [initLogger_trace, initLogger_logger]
  simp only [start]
  cases x.ParseAtomicLevel ((env "OPENTELEMETRY_EXTENSION_LOG_LEVEL").getD "") with
  | ok l => simp [hasRecord, records, Event.record?, Event.isLogCall]
  | error err =>
    by_cases h0 : (env "OPENTELEMETRY_EXTENSION_LOG_LEVEL").getD "" = "" <;>
      simp [h0, hasRecord, records, Event.record?, Event.isLogCall, Level.Enabled, Level.toInt]

/-- C9 (witness): the value `verbose` does not parse, so the warning record is
written and the level is `Info`; the value `debug` parses, so it is not. -/
theorem initLogger_warning_iff_witness :
    hasRecord "unable to parse log level from environment"
        (initLogger cleanWorld
          (start (envOf [("OPENTELEMETRY_EXTENSION_LOG_LEVEL", "verbose")]))).2.trace = true ∧
      (initLogger cleanWorld
          (start (envOf [("OPENTELEMETRY_EXTENSION_LOG_LEVEL", "verbose")]))).1.level
        = Level.Info ∧
      ¬ (hasRecord "unable to parse log level from environment"
        (initLogger cleanWorld
          (start (envOf [("OPENTELEMETRY_EXTENSION_LOG_LEVEL", "debug")]))).2.trace = true) := by
  have hv := initLogger_warning_iff cleanWorld
    (envOf [("OPENTELEMETRY_EXTENSION_LOG_LEVEL", "verbose")])
  have hd := initLogger_warning_iff cleanWorld
    (envOf [("OPENTELEMETRY_EXTENSION_LOG_LEVEL", "debug")])
  have hrec := hv.1.mpr ⟨by decide, "unrecognized level: \"verbose\"", rfl⟩
  refine ⟨hrec, hv.2.2 hrec, fun h => ?_⟩
  obtain ⟨_, err, herr⟩ := hd.1.mp h
  exact Except.noConfusion
    (show (Except.ok Level.Debug : Except GoError Level) = Except.error err from herr)

/-- C10: when `SUMOLOGIC_HTTP_TRACES_ENDPOINT_URL` is set to the empty string and
`SUMO_OTLP_HTTP_ENDPOINT_URL` holds a non-empty value `w`, the remapping block
leaves `SUMO_OTLP_HTTP_ENDPOINT_URL` set to the empty string, also in the
environment `main` ends with; and running the block a second time leaves the
environment as the first run left it. -/
theorem remap_on_presence (x : Externals) (Version : String) (L : Logger) (env : Env)
    (w : String)
    (hdep : env "SUMOLOGIC_HTTP_TRACES_ENDPOINT_URL" = some "")
    (hnew : env "SUMO_OTLP_HTTP_ENDPOINT_URL" = some w) (hw : w ≠ "") :
    (remapDeprecatedEndpoint L (start env)).env "SUMO_OTLP_HTTP_ENDPOINT_URL" = some "" ∧
      (remapDeprecatedEndpoint L (start env)).env "SUMO_OTLP_HTTP_ENDPOINT_URL" ≠
        env "SUMO_OTLP_HTTP_ENDPOINT_URL" ∧
      (main x Version false (start env)).1.env "SUMO_OTLP_HTTP_ENDPOINT_URL" = some "" ∧
      (remapDeprecatedEndpoint L (remapDeprecatedEndpoint L (start env))).env =
        (remapDeprecatedEndpoint L (start env)).env := by
  have h1 : (remapDeprecatedEndpoint L (start env)).env "SUMO_OTLP_HTTP_ENDPOINT_URL"
      = some "" := by
    rw [remap_env]
    simp only [start, hdep]
    simp
  refine ⟨h1, ?_, ?_, remap_idempotent L (start env)⟩
  · rw [h1, hnew]
    intro h
    exact hw (Option.some.inj h).symm
  · rw [main_unfold, pre_env]
    simp only [start, hdep]
    simp

/-- C10 (witness): an empty deprecated variable erases a configured endpoint. -/
theorem remap_on_presence_witness :
    (remapDeprecatedEndpoint { level := Level.Info }
        (start (envOf [("SUMOLOGIC_HTTP_TRACES_ENDPOINT_URL", ""),
          ("SUMO_OTLP_HTTP_ENDPOINT_URL", "https://new.example")]))).env
        "SUMO_OTLP_HTTP_ENDPOINT_URL" = some "" :=
  (remap_on_presence cleanWorld "latest" { level := Level.Info }
    (envOf [("SUMOLOGIC_HTTP_TRACES_ENDPOINT_URL", ""),
      ("SUMO_OTLP_HTTP_ENDPOINT_URL", "https://new.example")])
    "https://new.example" (by decide) (by decide) (by decide)).1

end Collector
